import Mathlib

/-!
Verification of the vulnerability scan engine of the WebSecurity repository.

The engine lives in `src/server/scanner.ts` (class `VulnerabilityScanner`).
Its three probes (`checkSSL`, `checkHeaders`, `checkPorts`) and the pure
aggregator (`calculateRisk`) are embedded shallowly below.  Network effects
are abstracted as explicit outcome values fed to the probe logic: a TLS
handshake outcome for `checkSSL`, an HTTP response (or failure) for
`checkHeaders`, and a per-port connect predicate for `checkPorts`.  JavaScript
number arithmetic on the relevant integer-valued quantities is modelled over
`Int`; `Math.round` of a quotient is `floor (num/den + 1/2)`, which agrees
with the double computation on every value reachable here (the rounded
quantities have denominator 5 or 3 in lowest terms, so they are never exact
halves, and the inputs are small integers).
-/

namespace WebSecurity

/-- `SSLInfo` from `shared/schema` (zod `sslSchema`): `valid` boolean,
optional `daysRemaining`, `issuer`, `expires`, `error`. -/
structure SSLInfo where
  valid : Bool
  daysRemaining : Option Int := none
  issuer : Option String := none
  expires : Option String := none
  error : Option String := none
  deriving DecidableEq, Repr

/-- `HeadersInfo` from `shared/schema` (zod `headersSchema`). -/
structure HeadersInfo where
  missing : List String
  present : List String
  score : Int
  deriving DecidableEq, Repr

/-- `PortsInfo` from `shared/schema` (zod `portsSchema`); the field `open`
is renamed `open_` because `open` is a Lean keyword. -/
structure PortsInfo where
  open_ : List Nat
  closed : List Nat
  total : Nat
  deriving DecidableEq, Repr

/-- Result record of `calculateRisk` (scanner.ts lines 199-203). -/
structure RiskResult where
  overallRisk : String
  securityScore : Int
  recommendations : List String
  deriving DecidableEq, Repr

/-- The fixed checklist `securityHeaders` (scanner.ts lines 8-15). -/
def securityHeaders : List String :=
  ["strict-transport-security",
   "content-security-policy",
   "x-frame-options",
   "x-content-type-options",
   "x-xss-protection",
   "referrer-policy"]

/-- The fixed probe set `commonPorts` (scanner.ts line 17). -/
def commonPorts : List Nat := [80, 443, 8080, 8443, 3000, 3001]

/-- JavaScript `Math.round` applied to the exact quotient `num / den` (for
`den > 0`): round half toward positive infinity, i.e. `floor (num/den + 1/2)`,
computed as euclidean division `(2*num + den) / (2*den)` (euclidean and floor
division agree for a positive divisor).  The double-precision evaluation in
the source agrees with exact rational rounding everywhere it is applied here:
the quotients have denominator 3 or 5 in lowest terms, so they are never
exact halves, and the magnitudes are tiny. -/
def mathRound (num den : Int) : Int := (2 * num + den) / (2 * den)

/-- `mathRound num den` is `⌊num/den + 1/2⌋`, the round-half-up of the
rational `num / den`, whenever `den > 0`. -/
lemma mathRound_eq_floor (num den : Int) (hd : 0 < den) :
    mathRound num den = Int.floor ((num : ℚ) / (den : ℚ) + 1/2) := by
  have hden : ((2 * den).toNat : ℤ) = 2 * den := Int.toNat_of_nonneg (by omega)
  have h1 : ((num : ℚ) / (den : ℚ) + 1/2) =
      ((2 * num + den : ℤ) : ℚ) / (((2 * den).toNat : ℕ) : ℚ) := by
    have hd0 : (den : ℚ) ≠ 0 := Int.cast_ne_zero.mpr (by omega)
    have h2 : (((2 * den).toNat : ℕ) : ℚ) = ((2 * den : ℤ) : ℚ) := by
      exact_mod_cast congrArg (Int.cast : ℤ → ℚ) hden
    rw [h2]
    push_cast
    field_simp
    ring
  rw [mathRound, h1, Rat.floor_intCast_div_natCast, hden]

/-- JavaScript truthiness of the optional number `ssl.daysRemaining`:
`undefined` and `0` are falsy, every other integer is truthy. -/
def truthy : Option Int → Bool
  | none => false
  | some d => d != 0

/-- JavaScript `a || b` for an optional string `a` (used for
`cert.issuer?.CN || 'Unknown'`): empty string and `undefined` are falsy. -/
def jsOrString (a : Option String) (b : String) : String :=
  match a with
  | some s => if s = "" then b else s
  | none => b

/-- The URL fields `checkSSL` consults: `protocol`, `hostname`, `port`. -/
structure ParsedURL where
  protocol : String
  hostname : String
  port : Option String := none
  deriving DecidableEq, Repr

/-- Outcome of the TLS connection attempt made by `checkSSL`
(scanner.ts lines 55-100), abstracting the network:
`handshake` is the `secureConnect` event carrying `socket.authorized`,
`socket.authorizationError`, the computed signed day count
`ceil((valid_to - now) / 1 day)`, the issuer common name, and the raw
`valid_to` string; `certParseError` is an exception thrown while reading the
certificate; `connError` is the socket `error` event; `timeout` is the
10-second socket timeout. -/
inductive TLSOutcome where
  | handshake (authorized : Bool) (authorizationError : String)
      (daysRemaining : Int) (issuerCN : Option String) (validTo : String)
  | certParseError
  | connError (message : String)
  | timeout
  deriving DecidableEq, Repr

/-- `checkSSL` (scanner.ts lines 47-101) as a function of the parsed URL and
the TLS outcome.  A non-`https:` scheme returns immediately, before any
connection is attempted, so the result ignores `outcome` in that case. -/
def checkSSL (url : ParsedURL) (outcome : TLSOutcome) : SSLInfo :=
  if url.protocol ≠ "https:" then
    { valid := false, error := some "Website does not use HTTPS" }
  else
    match outcome with
    | .handshake authorized authorizationError daysRemaining issuerCN validTo =>
        { valid := authorized
          daysRemaining := some daysRemaining
          issuer := some (jsOrString issuerCN "Unknown")
          expires := some validTo
          error := if authorized then none else some authorizationError }
    | .certParseError =>
        { valid := false, error := some "Failed to parse certificate" }
    | .connError message =>
        { valid := false, error := some message }
    | .timeout =>
        { valid := false, error := some "Connection timeout" }

/-- Outcome of the HEAD request made by `checkHeaders`
(scanner.ts lines 103-148): a response is abstracted to the truthiness of
`res.headers[h]` for each header name `h`; `requestError` is the request
`error` event; `timeout` is the 10-second request timeout. -/
inductive HeaderFetchOutcome where
  | response (headers : String → Bool)
  | requestError
  | timeout

/-- `checkHeaders` (scanner.ts lines 103-149) as a function of the fetch
outcome.  On a response, each checklist header is pushed to `present` or
`missing` in checklist order; `score = Math.round((present.length /
securityHeaders.length) * 100)`.  Both failure paths resolve the worst-case
finding. -/
def checkHeaders (outcome : HeaderFetchOutcome) : HeadersInfo :=
  match outcome with
  | .response headers =>
      let pm := securityHeaders.foldl
        (fun acc header =>
          if headers header then (acc.1 ++ [header], acc.2)
          else (acc.1, acc.2 ++ [header]))
        ([], [])
      { missing := pm.2
        present := pm.1
        -- `Math.round((present.length / securityHeaders.length) * 100)`:
        -- the exact quotient is `(present.length * 100) / securityHeaders.length`.
        score := mathRound ((pm.1.length : Int) * 100) (securityHeaders.length : Int) }
  | .requestError =>
      { missing := securityHeaders, present := [], score := 0 }
  | .timeout =>
      { missing := securityHeaders, present := [], score := 0 }

/-- `checkPorts` (scanner.ts lines 151-173) as a function of the per-port
connect outcome: `probe p = true` iff the TCP connect to port `p` succeeded
before its 3-second timeout (`checkPort` resolves `true` exactly then;
rejections and errors land in `closed` via `Promise.allSettled`).  Each
probed port is pushed to `open` or `closed` in probe-list order. -/
def checkPorts (probe : Nat → Bool) : PortsInfo :=
  let oc := commonPorts.foldl
    (fun acc port =>
      if probe port then (acc.1 ++ [port], acc.2)
      else (acc.1, acc.2 ++ [port]))
    ([], [])
  { open_ := oc.1, closed := oc.2, total := commonPorts.length }

/-- `expectedPorts` (scanner.ts line 233). -/
def expectedPorts : List Nat := [80, 443]

/-- `unexpectedOpen` (scanner.ts line 234): the open ports outside
`expectedPorts`, in the order they appear in `open`. -/
def unexpectedOpen (ports : PortsInfo) : List Nat :=
  ports.open_.filter (fun p => !(expectedPorts.contains p))

/-- The SSL contribution to the score (scanner.ts lines 207-217). -/
def sslScore (ssl : SSLInfo) : Int :=
  if ssl.valid then
    if truthy ssl.daysRemaining ∧ ssl.daysRemaining.getD 0 > 30 then 40
    else if truthy ssl.daysRemaining ∧ ssl.daysRemaining.getD 0 > 0 then 25
    else 0
  else 0

/-- The SSL recommendations (scanner.ts lines 207-217). -/
def sslRecs (ssl : SSLInfo) : List String :=
  if ssl.valid then
    if truthy ssl.daysRemaining ∧ ssl.daysRemaining.getD 0 > 30 then []
    else if truthy ssl.daysRemaining ∧ ssl.daysRemaining.getD 0 > 0 then
      ["SSL certificate expires soon - consider renewal"]
    else []
  else ["Fix SSL certificate issues - critical security vulnerability"]

/-- The headers contribution to the score (scanner.ts line 220):
`Math.round((headers.score / 100) * 40)`; the exact quotient is
`(headers.score * 40) / 100`. -/
def headersScorePoints (headers : HeadersInfo) : Int :=
  mathRound (headers.score * 40) 100

/-- The headers recommendations (scanner.ts lines 222-230). -/
def headersRecs (headers : HeadersInfo) : List String :=
  (if headers.missing.contains "content-security-policy" then
     ["Add Content-Security-Policy header to prevent XSS attacks"] else []) ++
  (if headers.missing.contains "x-frame-options" then
     ["Enable X-Frame-Options to prevent clickjacking"] else []) ++
  (if headers.missing.contains "strict-transport-security" then
     ["Add Strict-Transport-Security header for HTTPS enforcement"] else [])

/-- The ports contribution to the score (scanner.ts lines 236-241). -/
def portsScorePoints (ports : PortsInfo) : Int :=
  if unexpectedOpen ports = [] then 20 else 10

/-- The ports recommendation (scanner.ts lines 236-241): emitted only when
some unexpected port is open, joining the unexpected ports with `", "` in
the order they appear in `open`. -/
def portsRecs (ports : PortsInfo) : List String :=
  if unexpectedOpen ports = [] then []
  else ["Consider closing unnecessary ports: " ++
        String.intercalate ", " ((unexpectedOpen ports).map toString)]

/-- The risk tier (scanner.ts lines 243-250). -/
def riskTier (score : Int) : String :=
  if score ≥ 80 then "LOW RISK"
  else if score ≥ 50 then "MEDIUM RISK"
  else "HIGH RISK"

/-- `calculateRisk` (scanner.ts lines 199-257), with the imperative
accumulation of `score` and `recommendations` rendered as sequential
rebinding. -/
def calculateRisk (ssl : SSLInfo) (headers : HeadersInfo) (ports : PortsInfo) :
    RiskResult :=
  let score : Int := 0
  let recommendations : List String := []
  -- SSL scoring (40% of total)
  let sr :=
    if ssl.valid then
      if truthy ssl.daysRemaining ∧ ssl.daysRemaining.getD 0 > 30 then
        (score + 40, recommendations)
      else if truthy ssl.daysRemaining ∧ ssl.daysRemaining.getD 0 > 0 then
        (score + 25,
         recommendations ++ ["SSL certificate expires soon - consider renewal"])
      else (score, recommendations)
    else
      (score,
       recommendations ++
         ["Fix SSL certificate issues - critical security vulnerability"])
  let score := sr.1
  let recommendations := sr.2
  -- Headers scoring (40% of total)
  let score := score + mathRound (headers.score * 40) 100
  let recommendations := recommendations ++
    (if headers.missing.contains "content-security-policy" then
       ["Add Content-Security-Policy header to prevent XSS attacks"] else [])
  let recommendations := recommendations ++
    (if headers.missing.contains "x-frame-options" then
       ["Enable X-Frame-Options to prevent clickjacking"] else [])
  let recommendations := recommendations ++
    (if headers.missing.contains "strict-transport-security" then
       ["Add Strict-Transport-Security header for HTTPS enforcement"] else [])
  -- Ports scoring (20% of total)
  let unexpected := ports.open_.filter (fun p => !(expectedPorts.contains p))
  let pr :=
    if unexpected = [] then (score + 20, recommendations)
    else
      (score + 10,
       recommendations ++
         ["Consider closing unnecessary ports: " ++
          String.intercalate ", " (unexpected.map toString)])
  let score := pr.1
  let recommendations := pr.2
  let risk : String :=
    if score ≥ 80 then "LOW RISK"
    else if score ≥ 50 then "MEDIUM RISK"
    else "HIGH RISK"
  { overallRisk := risk, securityScore := score, recommendations := recommendations }

/-! Helper lemmas shared by the claim theorems. -/

/-- The push-to-left-or-right fold used by `checkHeaders` and `checkPorts`
is list partition by the predicate. -/
lemma foldl_partition {α : Type} (f : α → Bool) (l : List α) (a b : List α) :
    l.foldl
      (fun acc x => if f x then (acc.1 ++ [x], acc.2) else (acc.1, acc.2 ++ [x]))
      (a, b)
      = (a ++ l.filter f, b ++ l.filter (fun x => !(f x))) := by
  induction l generalizing a b with
  | nil => simp
  | cons x xs ih =>
      cases hfx : f x <;>
        simp [List.foldl_cons, hfx, ih, List.filter_cons, List.append_assoc]

/-- `checkHeaders` on a response partitions the checklist by truthiness of
the response lookup. -/
lemma checkHeaders_response (headers : String → Bool) :
    checkHeaders (.response headers) =
      { missing := securityHeaders.filter (fun h => !(headers h))
        present := securityHeaders.filter (fun h => headers h)
        score := mathRound
          (((securityHeaders.filter (fun h => headers h)).length : Int) * 100) 6 } := by
  simp only [checkHeaders, foldl_partition, List.nil_append]
  rfl

/-- `checkPorts` partitions the probe set by the connect outcome. -/
lemma checkPorts_eq (probe : Nat → Bool) :
    checkPorts probe =
      { open_ := commonPorts.filter (fun p => probe p)
        closed := commonPorts.filter (fun p => !(probe p))
        total := 6 } := by
  simp only [checkPorts, foldl_partition, List.nil_append]
  rfl

/-- The total score computed by `calculateRisk` is the sum of the three
contribution terms. -/
lemma calculateRisk_securityScore (ssl : SSLInfo) (headers : HeadersInfo)
    (ports : PortsInfo) :
    (calculateRisk ssl headers ports).securityScore =
      sslScore ssl + headersScorePoints headers + portsScorePoints ports := by
  simp only [calculateRisk, sslScore, headersScorePoints, portsScorePoints,
    unexpectedOpen]
  split_ifs <;> simp

/-- The recommendation list built by `calculateRisk` is the concatenation of
the SSL, header, and port recommendation blocks, in evaluation order. -/
lemma calculateRisk_recommendations (ssl : SSLInfo) (headers : HeadersInfo)
    (ports : PortsInfo) :
    (calculateRisk ssl headers ports).recommendations =
      sslRecs ssl ++ headersRecs headers ++ portsRecs ports := by
  simp only [calculateRisk, sslRecs, headersRecs, portsRecs, unexpectedOpen]
  split_ifs <;> simp

/-- The risk string computed by `calculateRisk` is `riskTier` of its own
security score. -/
lemma calculateRisk_overallRisk (ssl : SSLInfo) (headers : HeadersInfo)
    (ports : PortsInfo) :
    (calculateRisk ssl headers ports).overallRisk =
      riskTier (calculateRisk ssl headers ports).securityScore := rfl

/-- Every port recommendation starts with the character `C`. -/
lemma mem_portsRecs_head {msg : String} {ports : PortsInfo}
    (h : msg ∈ portsRecs ports) : msg.data.head? = some 'C' := by
  unfold portsRecs at h
  split_ifs at h with hu
  · simp at h
  · simp only [List.mem_singleton] at h
    subst h
    rw [String.data_append]
    have hc : ("Consider closing unnecessary ports: ").data =
        'C' :: ("onsider closing unnecessary ports: ").data := by decide
    rw [hc]
    rfl

/-- Membership in the aggregated recommendation list splits over the three
blocks. -/
lemma mem_calculateRisk_recommendations (msg : String) (ssl : SSLInfo)
    (headers : HeadersInfo) (ports : PortsInfo) :
    msg ∈ (calculateRisk ssl headers ports).recommendations ↔
      msg ∈ sslRecs ssl ∨ msg ∈ headersRecs headers ∨ msg ∈ portsRecs ports := by
  rw [calculateRisk_recommendations]
  simp [List.mem_append, or_assoc]

/-- A message that does not start with `C` is in the aggregated list iff it
is in the SSL block or the header block. -/
lemma mem_recs_of_head_ne {msg : String} (hhead : msg.data.head? ≠ some 'C')
    (ssl : SSLInfo) (headers : HeadersInfo) (ports : PortsInfo) :
    msg ∈ (calculateRisk ssl headers ports).recommendations ↔
      msg ∈ sslRecs ssl ∨ msg ∈ headersRecs headers := by
  rw [mem_calculateRisk_recommendations]
  constructor
  · rintro (h | h | h)
    · exact Or.inl h
    · exact Or.inr h
    · exact absurd (mem_portsRecs_head h) hhead
  · rintro (h | h)
    · exact Or.inl h
    · exact Or.inr (Or.inl h)

/-- The SSL contribution is one of 0, 25, 40. -/
lemma sslScore_cases (ssl : SSLInfo) :
    sslScore ssl = 0 ∨ sslScore ssl = 25 ∨ sslScore ssl = 40 := by
  unfold sslScore
  split_ifs <;> simp

/-- The header contribution is in `[0, 40]` when the header finding's score
is in `[0, 100]`. -/
lemma headersScorePoints_bounds (headers : HeadersInfo) (h0 : 0 ≤ headers.score)
    (h1 : headers.score ≤ 100) :
    0 ≤ headersScorePoints headers ∧ headersScorePoints headers ≤ 40 := by
  unfold headersScorePoints mathRound
  have h2 : (2 : Int) * 100 = 200 := by norm_num
  rw [h2]
  omega

/-- The header contribution is nonnegative when the header finding's score
is. -/
lemma headersScorePoints_nonneg (headers : HeadersInfo) (h0 : 0 ≤ headers.score) :
    0 ≤ headersScorePoints headers := by
  unfold headersScorePoints mathRound
  have h2 : (2 : Int) * 100 = 200 := by norm_num
  rw [h2]
  omega

/-- The ports contribution is 20 or 10. -/
lemma portsScorePoints_cases (ports : PortsInfo) :
    portsScorePoints ports = 20 ∨ portsScorePoints ports = 10 := by
  unfold portsScorePoints
  split_ifs <;> simp

/-- Every element of the header recommendation block is one of its three
fixed messages. -/
lemma mem_headersRecs {msg : String} {headers : HeadersInfo}
    (h : msg ∈ headersRecs headers) :
    msg = "Add Content-Security-Policy header to prevent XSS attacks" ∨
    msg = "Enable X-Frame-Options to prevent clickjacking" ∨
    msg = "Add Strict-Transport-Security header for HTTPS enforcement" := by
  unfold headersRecs at h
  split_ifs at h <;> simp_all <;> tauto

/-- Every element of the SSL recommendation block is one of its two fixed
messages. -/
lemma mem_sslRecs {msg : String} {ssl : SSLInfo} (h : msg ∈ sslRecs ssl) :
    msg = "SSL certificate expires soon - consider renewal" ∨
    msg = "Fix SSL certificate issues - critical security vulnerability" := by
  unfold sslRecs at h
  split_ifs at h <;> simp_all

/-- C1: for every triple of findings (with the header finding's `score` in
`[0, 100]`, as the header-finding data model guarantees), the
`securityScore` returned by `calculateRisk` is the exact sum of the three
independently-capped contributions — SSL in `[0, 40]`, headers in `[0, 40]`,
ports in `[0, 20]` — and the sum is an integer in `[0, 100]`. -/
theorem C1_securityScore_is_capped_sum (ssl : SSLInfo) (headers : HeadersInfo)
    (ports : PortsInfo) (h0 : 0 ≤ headers.score) (h1 : headers.score ≤ 100) :
    (calculateRisk ssl headers ports).securityScore =
      sslScore ssl + headersScorePoints headers + portsScorePoints ports ∧
    (0 ≤ sslScore ssl ∧ sslScore ssl ≤ 40) ∧
    (0 ≤ headersScorePoints headers ∧ headersScorePoints headers ≤ 40) ∧
    (0 ≤ portsScorePoints ports ∧ portsScorePoints ports ≤ 20) ∧
    0 ≤ (calculateRisk ssl headers ports).securityScore ∧
    (calculateRisk ssl headers ports).securityScore ≤ 100 := by
  have hssl := sslScore_cases ssl
  have hhdr := headersScorePoints_bounds headers h0 h1
  have hports := portsScorePoints_cases ports
  have hsum := calculateRisk_securityScore ssl headers ports
  refine ⟨hsum, ⟨?_, ?_⟩, hhdr, ⟨?_, ?_⟩, ?_, ?_⟩ <;> omega

/-- Witness for C1 at a concrete triple: a fresh valid certificate, all six
headers present, and only the expected ports open score exactly 100. -/
theorem C1_witness :
    0 ≤ ({ missing := [], present := securityHeaders, score := 100 } : HeadersInfo).score ∧
    ({ missing := [], present := securityHeaders, score := 100 } : HeadersInfo).score ≤ 100 ∧
    (calculateRisk { valid := true, daysRemaining := some 60 }
        { missing := [], present := securityHeaders, score := 100 }
        { open_ := [80, 443], closed := [8080, 8443, 3000, 3001], total := 6 }).securityScore =
      sslScore { valid := true, daysRemaining := some 60 } +
        headersScorePoints { missing := [], present := securityHeaders, score := 100 } +
        portsScorePoints { open_ := [80, 443], closed := [8080, 8443, 3000, 3001], total := 6 } :=
  ⟨by decide, by decide,
   (C1_securityScore_is_capped_sum { valid := true, daysRemaining := some 60 }
     { missing := [], present := securityHeaders, score := 100 }
     { open_ := [80, 443], closed := [8080, 8443, 3000, 3001], total := 6 }
     (by decide) (by decide)).1⟩

/-- C2: the risk string returned by `calculateRisk` is the deterministic
step function of its `securityScore`: LOW RISK iff the score is at least 80,
MEDIUM RISK iff it is in `[50, 80)`, HIGH RISK iff it is below 50. -/
theorem C2_risk_is_step_function (ssl : SSLInfo) (headers : HeadersInfo)
    (ports : PortsInfo) :
    (calculateRisk ssl headers ports).overallRisk =
      riskTier (calculateRisk ssl headers ports).securityScore ∧
    ∀ s : Int,
      (riskTier s = "LOW RISK" ↔ 80 ≤ s) ∧
      (riskTier s = "MEDIUM RISK" ↔ 50 ≤ s ∧ s < 80) ∧
      (riskTier s = "HIGH RISK" ↔ s < 50) := by
  refine ⟨calculateRisk_overallRisk ssl headers ports, fun s => ?_⟩
  have hLM : ("LOW RISK" : String) ≠ "MEDIUM RISK" := by decide
  have hLH : ("LOW RISK" : String) ≠ "HIGH RISK" := by decide
  have hMH : ("MEDIUM RISK" : String) ≠ "HIGH RISK" := by decide
  unfold riskTier
  split_ifs with h1 h2
  · exact ⟨⟨fun _ => h1, fun _ => rfl⟩,
      ⟨fun h => absurd h hLM, fun h => absurd h1 (by omega)⟩,
      ⟨fun h => absurd h hLH, fun h => absurd h1 (by omega)⟩⟩
  · exact ⟨⟨fun h => absurd h (Ne.symm hLM), fun h => absurd h h1⟩,
      ⟨fun _ => ⟨h2, by omega⟩, fun _ => rfl⟩,
      ⟨fun h => absurd h hMH, fun h => absurd h2 (by omega)⟩⟩
  · exact ⟨⟨fun h => absurd h (Ne.symm hLH), fun h => absurd h h1⟩,
      ⟨fun h => absurd h (Ne.symm hMH), fun h => absurd h.1 h2⟩,
      ⟨fun _ => by omega, fun _ => rfl⟩⟩

/-- Witness for C2 at the tier boundaries 49, 50, 80. -/
theorem C2_witness :
    riskTier 80 = "LOW RISK" ∧ riskTier 50 = "MEDIUM RISK" ∧
    riskTier 49 = "HIGH RISK" := by
  have h := C2_risk_is_step_function { valid := false }
    { missing := securityHeaders, present := [], score := 0 }
    { open_ := [], closed := commonPorts, total := 6 }
  exact ⟨(h.2 80).1.mpr (by norm_num), (h.2 50).2.1.mpr ⟨by norm_num, by norm_num⟩,
    (h.2 49).2.2.mpr (by norm_num)⟩

/-- C3: the SSL term of `calculateRisk` contributes exactly 40 when the
certificate is valid with more than 30 days remaining; exactly 25 — with the
renewal-soon recommendation emitted — when valid with between 1 and 30 days
remaining; and 0 in every other case, with the critical SSL-fix
recommendation emitted exactly when `valid` is false. -/
theorem C3_ssl_term (ssl : SSLInfo) (headers : HeadersInfo) (ports : PortsInfo) :
    (∀ d : Int, ssl.valid = true → ssl.daysRemaining = some d →
      (30 < d → sslScore ssl = 40) ∧
      (0 < d → d ≤ 30 →
        sslScore ssl = 25 ∧
        "SSL certificate expires soon - consider renewal" ∈
          (calculateRisk ssl headers ports).recommendations)) ∧
    ((ssl.valid = false ∨ ssl.daysRemaining = none ∨
        (∃ d : Int, ssl.daysRemaining = some d ∧ d ≤ 0)) →
      sslScore ssl = 0) ∧
    ("Fix SSL certificate issues - critical security vulnerability" ∈
        (calculateRisk ssl headers ports).recommendations ↔ ssl.valid = false) := by
  have hrenew : ("SSL certificate expires soon - consider renewal").data.head? ≠
      some 'C' := by decide
  have hfix : ("Fix SSL certificate issues - critical security vulnerability").data.head? ≠
      some 'C' := by decide
  refine ⟨fun d hv hd => ⟨fun h30 => ?_, fun h0 h30 => ⟨?_, ?_⟩⟩, fun hcase => ?_, ?_⟩
  · simp [sslScore, hv, hd, truthy, h30]
    omega
  · simp only [sslScore, hv, hd, truthy, Option.getD_some, if_true]
    split_ifs with ha hb
    · omega
    · rfl
    · exact absurd ⟨by simpa using (by omega : d ≠ 0), h0⟩ hb
  · rw [mem_recs_of_head_ne hrenew]
    left
    simp only [sslRecs, hv, hd, truthy, Option.getD_some, if_true]
    split_ifs with ha hb
    · omega
    · simp
    · exact absurd ⟨by simpa using (by omega : d ≠ 0), h0⟩ hb
  · rcases hcase with hv | hd | ⟨d, hd, hdle⟩
    · simp [sslScore, hv]
    · simp [sslScore, truthy, hd]
    · simp only [sslScore, hd, truthy, Option.getD_some]
      split_ifs with hv ha hb
      · omega
      · omega
      · rfl
      · rfl
  · rw [mem_recs_of_head_ne hfix]
    have hne : ("Fix SSL certificate issues - critical security vulnerability" : String) ≠
        "SSL certificate expires soon - consider renewal" := by decide
    constructor
    · rintro (h | h)
      · unfold sslRecs at h
        split_ifs at h with hv <;> simp_all
      · rcases mem_headersRecs h with h1 | h1 | h1 <;> exact absurd h1 (by decide)
    · intro hv
      left
      simp [sslRecs, hv]

/-- Witness for C3: a valid certificate with 10 days remaining contributes
exactly 25, and the renewal-soon message is in the recommendation list. -/
theorem C3_witness :
    ({ valid := true, daysRemaining := some 10 } : SSLInfo).valid = true ∧
    (0 : Int) < 10 ∧ (10 : Int) ≤ 30 ∧
    sslScore { valid := true, daysRemaining := some 10 } = 25 ∧
    "SSL certificate expires soon - consider renewal" ∈
      (calculateRisk { valid := true, daysRemaining := some 10 }
        { missing := [], present := securityHeaders, score := 100 }
        { open_ := [80, 443], closed := [8080, 8443, 3000, 3001], total := 6 }).recommendations := by
  have h := ((C3_ssl_term { valid := true, daysRemaining := some 10 }
    { missing := [], present := securityHeaders, score := 100 }
    { open_ := [80, 443], closed := [8080, 8443, 3000, 3001], total := 6 }).1
    10 (by decide) rfl).2 (by decide) (by decide)
  exact ⟨rfl, by decide, by decide, h.1, h.2⟩

/-- C4 counterexample: with ports 8443 and 3000 open (a reachable
`checkPorts` outcome), the emitted recommendation joins the unexpected ports
in probe-list order — `"8443, 3000"` — which is not ascending; the
recommendation the claim requires, naming them sorted ascending
(`"3000, 8443"`), is absent. -/
theorem C4_counterexample :
    (checkPorts (fun p => p = 8443 || p = 3000)).open_ = [8443, 3000] ∧
    unexpectedOpen (checkPorts (fun p => p = 8443 || p = 3000)) = [8443, 3000] ∧
    ¬ List.Sorted (· ≤ ·)
        (unexpectedOpen (checkPorts (fun p => p = 8443 || p = 3000))) ∧
    "Consider closing unnecessary ports: 8443, 3000" ∈
      (calculateRisk { valid := true, daysRemaining := some 60 }
        { missing := [], present := securityHeaders, score := 100 }
        (checkPorts (fun p => p = 8443 || p = 3000))).recommendations ∧
    "Consider closing unnecessary ports: 3000, 8443" ∉
      (calculateRisk { valid := true, daysRemaining := some 60 }
        { missing := [], present := securityHeaders, score := 100 }
        (checkPorts (fun p => p = 8443 || p = 3000))).recommendations := by
  refine ⟨by decide, by decide, by decide, ?_, ?_⟩ <;> decide

/-- C4 as amended: if no unexpected port is open the ports term contributes
20 and no port recommendation is emitted; otherwise it contributes 10 and
emits exactly one port recommendation, naming the unexpected open ports
comma-joined in the order they appear in the finding's `open` list (for
`checkPorts` outputs: probe-list order), not sorted ascending. -/
theorem C4_ports_term (ssl : SSLInfo) (headers : HeadersInfo) (ports : PortsInfo) :
    (unexpectedOpen ports = [] →
      portsScorePoints ports = 20 ∧
      (calculateRisk ssl headers ports).recommendations =
        sslRecs ssl ++ headersRecs headers) ∧
    (unexpectedOpen ports ≠ [] →
      portsScorePoints ports = 10 ∧
      (calculateRisk ssl headers ports).recommendations =
        sslRecs ssl ++ headersRecs headers ++
          ["Consider closing unnecessary ports: " ++
            String.intercalate ", " ((unexpectedOpen ports).map toString)]) := by
  rw [calculateRisk_recommendations]
  constructor
  · intro hu
    constructor
    · simp [portsScorePoints, hu]
    · simp [portsRecs, hu]
  · intro hu
    constructor
    · simp [portsScorePoints, hu]
    · simp [portsRecs, hu]

/-- Witness for C4 as amended: open ports 80, 443, 8080 leave 8080
unexpected, contribute 10, and produce the recommendation naming 8080. -/
theorem C4_witness :
    unexpectedOpen (checkPorts (fun p => p = 80 || p = 443 || p = 8080)) = [8080] ∧
    portsScorePoints (checkPorts (fun p => p = 80 || p = 443 || p = 8080)) = 10 ∧
    (calculateRisk { valid := true, daysRemaining := some 60 }
      { missing := [], present := securityHeaders, score := 100 }
      (checkPorts (fun p => p = 80 || p = 443 || p = 8080))).recommendations =
      ["Consider closing unnecessary ports: 8080"] := by
  have h := (C4_ports_term { valid := true, daysRemaining := some 60 }
    { missing := [], present := securityHeaders, score := 100 }
    (checkPorts (fun p => p = 80 || p = 443 || p = 8080))).2 (by decide)
  exact ⟨by decide, h.1, by rw [h.2]; decide⟩

/-- C5: on a header-probe failure — request error or timeout — `checkHeaders`
returns the worst-case finding (`present` empty, `missing` the full 6-item
checklist, `score = 0`); that finding contributes 0 to the header term of
`calculateRisk`, and all three header-specific recommendations (CSP,
X-Frame-Options, HSTS) are emitted. -/
theorem C5_header_failure_worst_case (o : HeaderFetchOutcome)
    (ho : o = .requestError ∨ o = .timeout) (ssl : SSLInfo) (ports : PortsInfo) :
    checkHeaders o = { missing := securityHeaders, present := [], score := 0 } ∧
    headersScorePoints (checkHeaders o) = 0 ∧
    "Add Content-Security-Policy header to prevent XSS attacks" ∈
      (calculateRisk ssl (checkHeaders o) ports).recommendations ∧
    "Enable X-Frame-Options to prevent clickjacking" ∈
      (calculateRisk ssl (checkHeaders o) ports).recommendations ∧
    "Add Strict-Transport-Security header for HTTPS enforcement" ∈
      (calculateRisk ssl (checkHeaders o) ports).recommendations := by
  have hworst : checkHeaders o =
      { missing := securityHeaders, present := [], score := 0 } := by
    rcases ho with h | h <;> rw [h] <;> rfl
  refine ⟨hworst, by rw [hworst]; decide, ?_, ?_, ?_⟩ <;>
    · rw [mem_calculateRisk_recommendations]
      right; left
      rw [hworst]
      decide

/-- Witness for C5 at the request-error outcome with a concrete SSL finding
and port finding. -/
theorem C5_witness :
    (HeaderFetchOutcome.requestError = HeaderFetchOutcome.requestError ∨
      HeaderFetchOutcome.requestError = HeaderFetchOutcome.timeout) ∧
    checkHeaders .requestError =
      { missing := securityHeaders, present := [], score := 0 } ∧
    headersScorePoints (checkHeaders .requestError) = 0 :=
  have h := C5_header_failure_worst_case .requestError (Or.inl rfl)
    { valid := true, daysRemaining := some 60 }
    { open_ := [80, 443], closed := [8080, 8443, 3000, 3001], total := 6 }
  ⟨Or.inl rfl, h.1, h.2.1⟩

/-- C6: for every response, `checkHeaders` partitions the fixed 6-item
checklist — `present` and `missing` are disjoint, their union is exactly the
checklist — and `score = round(100 × |present| / 6)`. -/
theorem C6_header_partition (headers : String → Bool) :
    (checkHeaders (.response headers)).present.Disjoint
      (checkHeaders (.response headers)).missing ∧
    (∀ h : String,
      (h ∈ (checkHeaders (.response headers)).present ∨
       h ∈ (checkHeaders (.response headers)).missing) ↔ h ∈ securityHeaders) ∧
    (checkHeaders (.response headers)).score =
      mathRound (100 * ((checkHeaders (.response headers)).present.length : Int)) 6 := by
  rw [checkHeaders_response]
  refine ⟨?_, fun h => ?_, by rw [mul_comm]⟩
  · intro a ha hb
    rw [List.mem_filter] at ha hb
    rw [ha.2] at hb
    simp at hb
  · simp only [List.mem_filter]
    cases hh : headers h <;> simp [hh]

/-- C7: for every combination of per-port probe outcomes, `checkPorts`
partitions the fixed probe set `{80, 443, 8080, 8443, 3000, 3001}` exactly —
`open` and `closed` are disjoint, each probed port lands in exactly one of
them — and `total = 6`. -/
theorem C7_port_partition (probe : Nat → Bool) :
    (checkPorts probe).open_.Disjoint (checkPorts probe).closed ∧
    (∀ p : Nat,
      (p ∈ (checkPorts probe).open_ ∨ p ∈ (checkPorts probe).closed) ↔
        p ∈ commonPorts) ∧
    (checkPorts probe).total = 6 := by
  rw [checkPorts_eq]
  refine ⟨?_, fun p => ?_, rfl⟩
  · intro a ha hb
    rw [List.mem_filter] at ha hb
    rw [ha.2] at hb
    simp at hb
  · simp only [List.mem_filter]
    cases hp : probe p <;> simp [hp]

/-- Witness for C6 at a response carrying exactly one checklist header. -/
theorem C6_witness :
    (checkHeaders (.response (fun h => h = "x-frame-options"))).score =
      mathRound
        (100 * ((checkHeaders (.response (fun h => h = "x-frame-options"))).present.length : Int))
        6 :=
  (C6_header_partition (fun h => h = "x-frame-options")).2.2

/-- Witness for C7 at a probe where only port 80 connects. -/
theorem C7_witness : (checkPorts (fun p => p = 80)).total = 6 :=
  (C7_port_partition (fun p => p = 80)).2.2

/-- C8: for every URL whose scheme is not `https:`, `checkSSL` returns the
rejection finding — `valid = false` with the error message stating the site
does not use HTTPS — without consulting the network (the result is the same
for every TLS outcome), and that finding contributes 0 to the SSL term. -/
theorem C8_non_https_rejected (url : ParsedURL) (h : url.protocol ≠ "https:")
    (o : TLSOutcome) :
    checkSSL url o =
      { valid := false, error := some "Website does not use HTTPS" } ∧
    (∃ msg pre : String, (checkSSL url o).error = some msg ∧
      msg = pre ++ "does not use HTTPS") ∧
    (∀ o2 : TLSOutcome, checkSSL url o = checkSSL url o2) ∧
    sslScore (checkSSL url o) = 0 := by
  have hfix : checkSSL url o =
      { valid := false, error := some "Website does not use HTTPS" } := by
    unfold checkSSL
    rw [if_pos h]
  refine ⟨hfix, ⟨"Website does not use HTTPS", "Website ", by rw [hfix], by decide⟩, ?_, ?_⟩
  · intro o2
    rw [hfix]
    unfold checkSSL
    rw [if_pos h]
  · rw [hfix]
    rfl

/-- Witness for C8 at a plain-HTTP URL and an arbitrary outcome. -/
theorem C8_witness :
    ({ protocol := "http:", hostname := "example.com" } : ParsedURL).protocol ≠
      "https:" ∧
    checkSSL { protocol := "http:", hostname := "example.com" } .timeout =
      { valid := false, error := some "Website does not use HTTPS" } :=
  ⟨by decide,
   (C8_non_https_rejected { protocol := "http:", hostname := "example.com" }
     (by decide) .timeout).1⟩

/-- C9: on every return path of `checkSSL`, the `error` field is absent iff
`valid` is true (so it is present exactly when `valid` is false; the
certificate-parse-failure path sets `valid = false`, so the claim's
"or parsing failed" disjunct is subsumed); and on a successful handshake
`valid` equals `socket.authorized` — whether the chain was cryptographically
verified — with `error` carrying the verification failure reason when it was
not. -/
theorem C9_error_iff_invalid (url : ParsedURL) (o : TLSOutcome) :
    ((checkSSL url o).error = none ↔ (checkSSL url o).valid = true) ∧
    (url.protocol = "https:" →
      ∀ (auth : Bool) (aerr : String) (d : Int) (cn : Option String) (vt : String),
        o = .handshake auth aerr d cn vt →
        (checkSSL url o).valid = auth ∧
        (auth = false → (checkSSL url o).error = some aerr)) := by
  constructor
  · unfold checkSSL
    split_ifs with hp
    · simp
    · cases o with
      | handshake auth aerr d cn vt => cases auth <;> simp
      | certParseError => simp
      | connError m => simp
      | timeout => simp
  · intro hp auth aerr d cn vt ho
    subst ho
    have hp' : ¬ url.protocol ≠ "https:" := by simp [hp]
    unfold checkSSL
    rw [if_neg hp']
    cases auth <;> simp

/-- Witness for C9 at an HTTPS URL whose handshake succeeded but whose chain
failed verification: `valid` is false and `error` carries the reason. -/
theorem C9_witness :
    ({ protocol := "https:", hostname := "example.com" } : ParsedURL).protocol =
      "https:" ∧
    (checkSSL { protocol := "https:", hostname := "example.com" }
      (.handshake false "SELF_SIGNED_CERT_IN_CHAIN" 90 (some "Test CA") "Jan 1")).valid =
      false ∧
    (checkSSL { protocol := "https:", hostname := "example.com" }
      (.handshake false "SELF_SIGNED_CERT_IN_CHAIN" 90 (some "Test CA") "Jan 1")).error =
      some "SELF_SIGNED_CERT_IN_CHAIN" := by
  have h := (C9_error_iff_invalid { protocol := "https:", hostname := "example.com" }
    (.handshake false "SELF_SIGNED_CERT_IN_CHAIN" 90 (some "Test CA") "Jan 1")).2
    rfl false "SELF_SIGNED_CERT_IN_CHAIN" 90 (some "Test CA") "Jan 1" rfl
  exact ⟨rfl, h.1, h.2 rfl⟩

/-- C10 (implicit): the ports term adds 20 or 10 unconditionally, so for
every triple of findings whose header score is nonnegative (all reachable
header findings are), the aggregated `securityScore` is at least 10 — in
particular it is never 0, despite the spec's stated 0–100 range and its
`{0,49} → HIGH` tier example. -/
theorem C10_score_at_least_ten (ssl : SSLInfo) (headers : HeadersInfo)
    (ports : PortsInfo) (h0 : 0 ≤ headers.score) :
    (portsScorePoints ports = 20 ∨ portsScorePoints ports = 10) ∧
    10 ≤ (calculateRisk ssl headers ports).securityScore ∧
    (calculateRisk ssl headers ports).securityScore ≠ 0 := by
  have hports := portsScorePoints_cases ports
  have hssl := sslScore_cases ssl
  have hhdr := headersScorePoints_nonneg headers h0
  have hsum := calculateRisk_securityScore ssl headers ports
  refine ⟨hports, ?_, ?_⟩ <;> omega

/-- Witness for C10: the all-failures scan (invalid SSL, unreachable header
probe, every port closed) still scores at least 10. -/
theorem C10_witness :
    0 ≤ (checkHeaders .requestError).score ∧
    10 ≤ (calculateRisk { valid := false } (checkHeaders .requestError)
      (checkPorts (fun _ => false))).securityScore :=
  ⟨by decide,
   (C10_score_at_least_ten { valid := false } (checkHeaders .requestError)
     (checkPorts (fun _ => false)) (by decide)).2.1⟩

end WebSecurity
